import Mathlib

/-!
Shallow embedding of the stacknow/nodejs demo HTTP server.

The application source is the Express server shipped inside the container
image (the `index.js` executed by the image entrypoint); it exposes five
GET routes: `/`, `/health`, `/env`, `/posts` and `/random-fact`, plus a
periodic console spinner.  The repository also carries a minimal
stand-alone `index.js` variant with only the root route.

Modelling choices:
- JSON values are the inductive `Json` below; JS numbers are modelled as
  integers (no claim depends on numeric content).
- The ambient state a handler can observe (environment variables, the
  clock string produced by `Date.toISOString`, and the behaviour of the
  upstream `fetch`) is passed explicitly in a `World` record.
- A `fetch` call either fails in transport (promise rejection) or yields
  a response with a status code and a body whose JSON parse either
  succeeds or fails; `Response.ok` is true exactly for statuses 200-299.
- Handlers are total functions from the observed world to an
  `HttpResponse`; the try/catch in the relay routes is reflected by the
  total case split on `FetchOutcome`.
-/

/-- JSON values, as produced by `response.json()` and `res.json(...)`. -/
inductive Json where
  | null : Json
  | bool : Bool → Json
  | num : Int → Json
  | str : String → Json
  | arr : List Json → Json
  | obj : List (String × Json) → Json

/-- The body of an HTTP response: `res.send(string)` produces text,
`res.json(value)` produces JSON. -/
inductive Body where
  | text : String → Body
  | json : Json → Body

/-- An HTTP response as assembled by `res.status(...).json(...)` or
`res.send(...)` (Express defaults the status of `send` to 200). -/
structure HttpResponse where
  status : Nat
  body : Body

/-- Outcome of one `await fetch(url)` together with the subsequent
`await response.json()`: either the fetch promise rejects (DNS, TLS,
connection refused, timeout), or a response arrives carrying a status
code and a body; `some j` is a body that parses as the JSON value `j`,
`none` a body whose parse throws. -/
inductive FetchOutcome where
  | networkError : FetchOutcome
  | response : Nat → Option Json → FetchOutcome

/-- `Response.ok` of the platform fetch API: true iff the status is in
the success range 200-299. -/
def responseOk (status : Nat) : Bool :=
  200 ≤ status && status ≤ 299

/-- A fetch outcome on which the relay takes its success path: a
response whose status is in the 200-299 range and whose body parses. -/
def isSuccessOutcome : FetchOutcome → Bool
  | FetchOutcome.response st (some _) => responseOk st
  | _ => false

/-- The JS expression `v || dflt` applied to an environment lookup:
`process.env.k` is a string when the variable is set and `undefined`
otherwise; `undefined` and the empty string are the falsy cases, so the
default is substituted for both. -/
def jsOr (v : Option String) (dflt : String) : String :=
  match v with
  | none => dflt
  | some s => if s = "" then dflt else s

/-- Ambient state observable by the handlers: the process environment,
the ISO clock string `new Date().toISOString()` would return now, and
the behaviour of the upstream fetch of each relay route. -/
structure World where
  env : String → Option String
  nowISO : String
  postsUpstream : FetchOutcome
  factUpstream : FetchOutcome

/-- The five GET routes registered on the Express app. -/
inductive Route where
  | root : Route
  | health : Route
  | env : Route
  | posts : Route
  | randomFact : Route

/-- Handler of `GET /` in the application server: `res.send` of the fixed
greeting text, which Express answers with status 200. -/
def rootHandler : HttpResponse :=
  { status := 200, body := Body.text "Hello, World! The server is running." }

/-- Root handler of the minimal stand-alone `index.js` variant, whose
`res.send` carries only the short greeting. -/
def indexJsRootHandler : HttpResponse :=
  { status := 200, body := Body.text "Hello, World!" }

/-- Handler of `GET /health`: answers 200 with a JSON object holding the
fixed status `ok`, a fixed message, and the current ISO clock string from
`new Date().toISOString()`. -/
def healthHandler (nowISO : String) : HttpResponse :=
  { status := 200
    body := Body.json (Json.obj
      [("status", Json.str "ok"),
       ("message", Json.str "Service is healthy"),
       ("timestamp", Json.str nowISO)]) }

/-- Handler of `GET /env`: builds `relevantEnvVars` from the five fixed
lookups of `process.env`, each defaulted through the JS or-operator to
the sentinel `NOT FOUND`, and returns it under `variables` together with
a fixed `message`. -/
def envHandler (env : String → Option String) : HttpResponse :=
  { status := 200
    body := Body.json (Json.obj
      [("message", Json.str "Environment variables as seen by the Node.js process:"),
       ("variables", Json.obj
         [("testkey1", Json.str (jsOr (env "testkey1") "NOT FOUND")),
          ("testkey2", Json.str (jsOr (env "testkey2") "NOT FOUND")),
          ("testkey3", Json.str (jsOr (env "testkey3") "NOT FOUND")),
          ("testkey4", Json.str (jsOr (env "testkey4") "NOT FOUND")),
          ("KUBERNETES_SERVICE_HOST",
            Json.str (jsOr (env "KUBERNETES_SERVICE_HOST") "NOT FOUND"))])]) }

/-- Handler of `GET /posts`: fetches the upstream, throws on `!response.ok`,
parses the body, answers 200 with the parsed JSON; every throw lands in the
catch, which answers 500 with the fixed message. -/
def postsHandler : FetchOutcome → HttpResponse
  | FetchOutcome.networkError =>
      { status := 500
        body := Body.json (Json.obj
          [("message", Json.str "Failed to fetch posts from external service.")]) }
  | FetchOutcome.response st parsed =>
      if responseOk st then
        match parsed with
        | some posts => { status := 200, body := Body.json posts }
        | none =>
            { status := 500
              body := Body.json (Json.obj
                [("message", Json.str "Failed to fetch posts from external service.")]) }
      else
        { status := 500
          body := Body.json (Json.obj
            [("message", Json.str "Failed to fetch posts from external service.")]) }

/-- Handler of `GET /random-fact`: same relay pattern as `/posts` with its
own upstream URL and its own fixed error message. -/
def randomFactHandler : FetchOutcome → HttpResponse
  | FetchOutcome.networkError =>
      { status := 500
        body := Body.json (Json.obj
          [("message", Json.str "Failed to fetch a random fact.")]) }
  | FetchOutcome.response st parsed =>
      if responseOk st then
        match parsed with
        | some fact => { status := 200, body := Body.json fact }
        | none =>
            { status := 500
              body := Body.json (Json.obj
                [("message", Json.str "Failed to fetch a random fact.")]) }
      else
        { status := 500
          body := Body.json (Json.obj
            [("message", Json.str "Failed to fetch a random fact.")]) }

/-- The fixed 500 response of the `/posts` catch block. -/
def postsErrorResponse : HttpResponse :=
  { status := 500
    body := Body.json (Json.obj
      [("message", Json.str "Failed to fetch posts from external service.")]) }

/-- The fixed 500 response of the `/random-fact` catch block. -/
def factErrorResponse : HttpResponse :=
  { status := 500
    body := Body.json (Json.obj
      [("message", Json.str "Failed to fetch a random fact.")]) }

/-- Dispatch of one GET request in a given world to the matching route
handler. -/
def handle (w : World) : Route → HttpResponse
  | Route.root => rootHandler
  | Route.health => healthHandler w.nowISO
  | Route.env => envHandler w.env
  | Route.posts => postsHandler w.postsUpstream
  | Route.randomFact => randomFactHandler w.factUpstream

/-- Looks a key up in a JSON object, as reading a field of the response
body would. -/
def jsonField (j : Json) (k : String) : Option Json :=
  match j with
  | Json.obj fields => (fields.find? (fun p => p.fst == k)).map Prod.snd
  | _ => none

/-- Reads a top-level field of the JSON body of a response; `none` when
the body is not a JSON object or lacks the field. -/
def responseField (r : HttpResponse) (k : String) : Option Json :=
  match r.body with
  | Body.json j => jsonField j k
  | _ => none

/-- Replaces the value of every top-level `timestamp` field of a JSON
object body by `null`: the shape of a response with the content of the
`/health` timestamp erased. -/
def responseShape (r : HttpResponse) : HttpResponse :=
  { r with body :=
      match r.body with
      | Body.text s => Body.text s
      | Body.json (Json.obj fields) =>
          Body.json (Json.obj (fields.map
            (fun p => if p.fst = "timestamp" then (p.fst, Json.null) else p)))
      | Body.json j => Body.json j }

/-- The four spinner characters. -/
def spinnerChars : List Char := ['|', '/', '-', '\\']

/-- One tick of the `setInterval` callback as it affects `spinnerIndex`:
`spinnerIndex = (spinnerIndex + 1) % spinnerChars.length`. -/
def spinnerTick (i : Nat) : Nat :=
  (i + 1) % spinnerChars.length

/-- `spinnerIndex` after `n` ticks, starting from its declared value 0. -/
def spinnerIndexAfter : Nat → Nat
  | 0 => 0
  | n + 1 => spinnerTick (spinnerIndexAfter n)

/-- C1: whenever the upstream fetch of the posts relay completes with a
status in the success range 200-299 and a body that parses as the JSON
value `j`, the handler answers HTTP 200 with exactly `j` as its body,
unmodified. -/
theorem posts_relay_success (st : Nat) (j : Json)
    (h1 : 200 ≤ st) (h2 : st ≤ 299) :
    postsHandler (FetchOutcome.response st (some j)) =
      { status := 200, body := Body.json j } := by
  simp [postsHandler, responseOk, h1, h2]

/-- Witness for C1 at a concrete success outcome: upstream status 200
with a one-element JSON array. -/
theorem posts_relay_success_witness :
    200 ≤ 200 ∧ 200 ≤ 299 ∧
    postsHandler (FetchOutcome.response 200 (some (Json.arr [Json.num 1]))) =
      { status := 200, body := Body.json (Json.arr [Json.num 1]) } :=
  ⟨by decide, by decide,
   posts_relay_success 200 (Json.arr [Json.num 1]) (by decide) (by decide)⟩

/-- C2: on every fetch outcome that is not a success (non-2xx upstream
status, transport error, or JSON-parse error), each relay handler
answers exactly HTTP 500 with its own fixed JSON body; the response does
not depend on the upstream status or body in any other way. -/
theorem relay_failure_fixed_500 (o : FetchOutcome)
    (h : isSuccessOutcome o = false) :
    postsHandler o =
      { status := 500
        body := Body.json (Json.obj
          [("message", Json.str "Failed to fetch posts from external service.")]) } ∧
    randomFactHandler o =
      { status := 500
        body := Body.json (Json.obj
          [("message", Json.str "Failed to fetch a random fact.")]) } := by
  cases o with
  | networkError => exact ⟨rfl, rfl⟩
  | response st parsed =>
      cases parsed with
      | none =>
          cases h2 : responseOk st <;>
            simp [postsHandler, randomFactHandler, h2]
      | some j =>
          simp [isSuccessOutcome] at h
          simp [postsHandler, randomFactHandler, h]

/-- Witness for C2 at a concrete failure: upstream answers 404 with a
parseable body, which is discarded. -/
theorem relay_failure_fixed_500_witness :
    isSuccessOutcome (FetchOutcome.response 404 (some (Json.str "gone"))) = false ∧
    (postsHandler (FetchOutcome.response 404 (some (Json.str "gone"))) =
      { status := 500
        body := Body.json (Json.obj
          [("message", Json.str "Failed to fetch posts from external service.")]) } ∧
     randomFactHandler (FetchOutcome.response 404 (some (Json.str "gone"))) =
      { status := 500
        body := Body.json (Json.obj
          [("message", Json.str "Failed to fetch a random fact.")]) }) :=
  ⟨rfl, relay_failure_fixed_500 (FetchOutcome.response 404 (some (Json.str "gone"))) rfl⟩

/-- C3: in every world, the root route answers HTTP 200 with the exact
greeting text. -/
theorem root_handler_constant (w : World) :
    handle w Route.root =
      { status := 200, body := Body.text "Hello, World! The server is running." } :=
  rfl

/-- C4: when none of the five relevant environment variables is set, the
env route answers HTTP 200 with every variable reported as the sentinel
NOT FOUND. -/
theorem env_all_unset (e : String → Option String)
    (h1 : e "testkey1" = none) (h2 : e "testkey2" = none)
    (h3 : e "testkey3" = none) (h4 : e "testkey4" = none)
    (h5 : e "KUBERNETES_SERVICE_HOST" = none) :
    envHandler e =
      { status := 200
        body := Body.json (Json.obj
          [("message", Json.str "Environment variables as seen by the Node.js process:"),
           ("variables", Json.obj
             [("testkey1", Json.str "NOT FOUND"),
              ("testkey2", Json.str "NOT FOUND"),
              ("testkey3", Json.str "NOT FOUND"),
              ("testkey4", Json.str "NOT FOUND"),
              ("KUBERNETES_SERVICE_HOST", Json.str "NOT FOUND")])]) } := by
  simp [envHandler, h1, h2, h3, h4, h5, jsOr]

/-- Witness for C4 at the empty environment. -/
theorem env_all_unset_witness :
    ((fun _ : String => (none : Option String)) "testkey1" = none) ∧
    envHandler (fun _ => none) =
      { status := 200
        body := Body.json (Json.obj
          [("message", Json.str "Environment variables as seen by the Node.js process:"),
           ("variables", Json.obj
             [("testkey1", Json.str "NOT FOUND"),
              ("testkey2", Json.str "NOT FOUND"),
              ("testkey3", Json.str "NOT FOUND"),
              ("testkey4", Json.str "NOT FOUND"),
              ("KUBERNETES_SERVICE_HOST", Json.str "NOT FOUND")])]) } :=
  ⟨rfl, env_all_unset (fun _ => none) rfl rfl rfl rfl rfl⟩

/-- C5: when testkey1 is set to foo and the other four relevant
variables are unset, the env route answers HTTP 200 reporting testkey1
as foo and every other variable as the sentinel NOT FOUND. -/
theorem env_testkey1_foo (e : String → Option String)
    (h1 : e "testkey1" = some "foo") (h2 : e "testkey2" = none)
    (h3 : e "testkey3" = none) (h4 : e "testkey4" = none)
    (h5 : e "KUBERNETES_SERVICE_HOST" = none) :
    envHandler e =
      { status := 200
        body := Body.json (Json.obj
          [("message", Json.str "Environment variables as seen by the Node.js process:"),
           ("variables", Json.obj
             [("testkey1", Json.str "foo"),
              ("testkey2", Json.str "NOT FOUND"),
              ("testkey3", Json.str "NOT FOUND"),
              ("testkey4", Json.str "NOT FOUND"),
              ("KUBERNETES_SERVICE_HOST", Json.str "NOT FOUND")])]) } := by
  simp [envHandler, h1, h2, h3, h4, h5, jsOr]

/-- Witness for C5 at the environment holding exactly testkey1 = foo. -/
theorem env_testkey1_foo_witness :
    ((fun k : String => if k = "testkey1" then some "foo" else none) "testkey1"
        = some "foo") ∧
    envHandler (fun k => if k = "testkey1" then some "foo" else none) =
      { status := 200
        body := Body.json (Json.obj
          [("message", Json.str "Environment variables as seen by the Node.js process:"),
           ("variables", Json.obj
             [("testkey1", Json.str "foo"),
              ("testkey2", Json.str "NOT FOUND"),
              ("testkey3", Json.str "NOT FOUND"),
              ("testkey4", Json.str "NOT FOUND"),
              ("KUBERNETES_SERVICE_HOST", Json.str "NOT FOUND")])]) } :=
  ⟨by decide,
   env_testkey1_foo (fun k => if k = "testkey1" then some "foo" else none)
     (by decide) (by decide) (by decide) (by decide) (by decide)⟩

/-- C6: the health route always answers HTTP 200 with a body whose
status field is ok and whose timestamp field is exactly the clock string
of the call; calls at different clock values produce different
responses. -/
theorem health_ok_fresh_timestamp (t1 t2 : String) :
    (healthHandler t1).status = 200 ∧
    responseField (healthHandler t1) "status" = some (Json.str "ok") ∧
    responseField (healthHandler t1) "timestamp" = some (Json.str t1) ∧
    (t1 ≠ t2 → healthHandler t1 ≠ healthHandler t2) := by
  refine ⟨rfl, rfl, rfl, ?_⟩
  intro hne h
  apply hne
  have h2 := congrArg (fun r => responseField r "timestamp") h
  simpa [responseField, healthHandler, jsonField] using h2

/-- Witness for C6 at two concrete distinct clock strings. -/
theorem health_ok_fresh_timestamp_witness :
    (healthHandler "2024-05-01T12:00:00.000Z").status = 200 ∧
    responseField (healthHandler "2024-05-01T12:00:00.000Z") "status"
        = some (Json.str "ok") ∧
    responseField (healthHandler "2024-05-01T12:00:00.000Z") "timestamp"
        = some (Json.str "2024-05-01T12:00:00.000Z") ∧
    healthHandler "2024-05-01T12:00:00.000Z"
        ≠ healthHandler "2024-05-01T12:00:00.001Z" := by
  obtain ⟨h1, h2, h3, h4⟩ :=
    health_ok_fresh_timestamp "2024-05-01T12:00:00.000Z" "2024-05-01T12:00:00.001Z"
  exact ⟨h1, h2, h3, h4 (by decide)⟩

/-- C7: on every possible upstream behaviour, each relay handler
terminates in exactly one of two outcomes: a 200 response carrying some
JSON body, or its own fixed 500 failure response; no other response and
no escaping error is possible. -/
theorem relay_exactly_two_outcomes (op of : FetchOutcome) :
    ((∃ j, postsHandler op = { status := 200, body := Body.json j }) ∨
      postsHandler op =
        { status := 500
          body := Body.json (Json.obj
            [("message", Json.str "Failed to fetch posts from external service.")]) }) ∧
    ((∃ j, randomFactHandler of = { status := 200, body := Body.json j }) ∨
      randomFactHandler of =
        { status := 500
          body := Body.json (Json.obj
            [("message", Json.str "Failed to fetch a random fact.")]) }) := by
  constructor
  · cases op with
    | networkError => exact Or.inr rfl
    | response st parsed =>
        cases parsed with
        | none =>
            right
            cases h2 : responseOk st <;> simp [postsHandler, h2]
        | some j =>
            by_cases h : responseOk st = true
            · exact Or.inl ⟨j, by simp [postsHandler, h]⟩
            · right
              simp [postsHandler, h]
  · cases of with
    | networkError => exact Or.inr rfl
    | response st parsed =>
        cases parsed with
        | none =>
            right
            cases h2 : responseOk st <;> simp [randomFactHandler, h2]
        | some j =>
            by_cases h : responseOk st = true
            · exact Or.inl ⟨j, by simp [randomFactHandler, h]⟩
            · right
              simp [randomFactHandler, h]

/-- C8: repeating a GET request on any route in worlds that agree on
the environment and on the upstream behaviour yields the same HTTP
status and the same body shape, the content of the health timestamp
field excepted. -/
theorem get_idempotent_up_to_timestamp (r : Route) (w1 w2 : World)
    (henv : w1.env = w2.env)
    (hp : w1.postsUpstream = w2.postsUpstream)
    (hf : w1.factUpstream = w2.factUpstream) :
    (handle w1 r).status = (handle w2 r).status ∧
    responseShape (handle w1 r) = responseShape (handle w2 r) := by
  cases r with
  | root => exact ⟨rfl, rfl⟩
  | health =>
      refine ⟨rfl, ?_⟩
      simp [handle, healthHandler, responseShape]
  | env => simp [handle, henv]
  | posts => simp [handle, hp]
  | randomFact => simp [handle, hf]

/-- Witness for C8: two calls of the health route at different clock
values agree in status and in shape. -/
theorem get_idempotent_up_to_timestamp_witness :
    (handle
        (World.mk (fun _ => none) "2024-01-01T00:00:00.000Z"
          FetchOutcome.networkError FetchOutcome.networkError)
        Route.health).status =
      (handle
        (World.mk (fun _ => none) "2024-01-02T00:00:00.000Z"
          FetchOutcome.networkError FetchOutcome.networkError)
        Route.health).status ∧
    responseShape (handle
        (World.mk (fun _ => none) "2024-01-01T00:00:00.000Z"
          FetchOutcome.networkError FetchOutcome.networkError)
        Route.health) =
      responseShape (handle
        (World.mk (fun _ => none) "2024-01-02T00:00:00.000Z"
          FetchOutcome.networkError FetchOutcome.networkError)
        Route.health) :=
  get_idempotent_up_to_timestamp Route.health
    (World.mk (fun _ => none) "2024-01-01T00:00:00.000Z"
      FetchOutcome.networkError FetchOutcome.networkError)
    (World.mk (fun _ => none) "2024-01-02T00:00:00.000Z"
      FetchOutcome.networkError FetchOutcome.networkError)
    rfl rfl rfl

/-- C9: an environment variable set to the empty string is reported as
the sentinel NOT FOUND, and the env route answers identically to the
environment in which that variable is unset: the or-operator substitutes
the sentinel for every falsy lookup, not only for absence. -/
theorem env_empty_string_not_found (e : String → Option String) (k : String)
    (he : e k = some "") :
    jsOr (e k) "NOT FOUND" = "NOT FOUND" ∧
    envHandler e = envHandler (fun k2 => if k2 = k then none else e k2) := by
  constructor
  · simp [jsOr, he]
  · unfold envHandler
    have lift : ∀ k2 : String,
        jsOr ((fun k3 => if k3 = k then none else e k3) k2) "NOT FOUND" =
          jsOr (e k2) "NOT FOUND" := by
      intro k2
      by_cases hk : k2 = k
      · subst hk
        simp [jsOr, he]
      · simp [hk]
    simp [lift]

/-- Witness for C9 at the environment mapping every name to the empty
string, emptied at testkey1. -/
theorem env_empty_string_not_found_witness :
    ((fun _ : String => some "") "testkey1" = some "") ∧
    (jsOr ((fun _ : String => some "") "testkey1") "NOT FOUND" = "NOT FOUND" ∧
     envHandler (fun _ => some "") =
       envHandler (fun k2 =>
         if k2 = "testkey1" then none else (fun _ : String => some "") k2)) :=
  ⟨rfl, env_empty_string_not_found (fun _ => some "") "testkey1" rfl⟩

/-- C10: the spinner array has four characters, the rotating index
starts at 0, stays strictly below the array length after every number of
ticks, each tick advances it by one modulo the array length, and the
indexed character lookup is always in bounds. -/
theorem spinner_index_invariant (n : Nat) :
    spinnerChars.length = 4 ∧
    spinnerIndexAfter 0 = 0 ∧
    spinnerIndexAfter n < spinnerChars.length ∧
    (spinnerChars.get? (spinnerIndexAfter n)).isSome = true ∧
    spinnerIndexAfter (n + 1) = (spinnerIndexAfter n + 1) % spinnerChars.length := by
  have hb : spinnerIndexAfter n < spinnerChars.length := by
    cases n with
    | zero => decide
    | succ m =>
        show spinnerTick (spinnerIndexAfter m) < spinnerChars.length
        unfold spinnerTick
        exact Nat.mod_lt _ (by decide)
  have hs : ∀ i, i < 4 → (spinnerChars.get? i).isSome = true := by decide
  exact ⟨rfl, rfl, hb, hs _ hb, rfl⟩
